import Mathlib

/-!
Shallow embedding of `src/gemini_api.py` (the credential loader
`get_api_keys` and the failover invoker `generate_with_failover`).

The downstream service (`genai`) is modelled as a pure oracle `Env`;
every externally visible downstream interaction (`configure`,
`get_file`, `generate_content`) is recorded in an event trace so that
call counts and call order can be stated.
-/

set_option autoImplicit false

/-- A resolved remote file handle, as returned by the downstream
`genai.get_file`. Opaque to the failover logic. -/
structure FileHandle where
  fileId : String
deriving DecidableEq, Repr

/-- One element of the content list passed to `model.generate_content`:
either a resolved file handle or a text string. In the source the list is
`[prompt]`, with the file handle inserted at position 0 when present. -/
inductive ContentPart where
  | file (h : FileHandle)
  | text (s : String)
deriving DecidableEq, Repr

/-- A Python exception raised by a downstream call, as the failover loop
distinguishes them: `google_exceptions.ResourceExhausted` (quota
exhaustion) versus any other exception, carrying `str(e)`. -/
inductive PyExn where
  | resourceExhausted
  | other (msg : String)
deriving DecidableEq, Repr

/-- Outcome of one `model.generate_content` call: a response whose
`.text` may be `None` (`Option.none`), or an exception. -/
inductive GenResult where
  | ok (text : Option String)
  | quotaExhausted
  | error (msg : String)
deriving DecidableEq, Repr

/-- The downstream generation service as a pure oracle.
`getFile name` models `genai.get_file(file_name)`;
`generate key model sysInstr content` models
`model.generate_content(content)` after `genai.configure(api_key=key)`
and `GenerativeModel(model_name, system_instruction)`. -/
structure Env where
  getFile : String → Except PyExn FileHandle
  generate : String → String → Option String → List ContentPart → GenResult

/-- Externally visible downstream calls, in the order the code makes
them. -/
inductive Event where
  | configure (key : String)
  | getFileCall (name : String)
  | generateCall (key : String) (modelName : String)
      (sysInstr : Option String) (content : List ContentPart)
deriving DecidableEq, Repr

/-- Python truthiness of a `str | None` value: `None` and `""` are
falsy, every other string is truthy (`if file_name:` in the source). -/
def optTruthy : Option String → Bool
  | none => false
  | some s => !(s == "")

/-- Characters removed by Python `str.strip()` with no argument. -/
def isPySpace (c : Char) : Bool :=
  c == ' ' || c == '\t' || c == '\n' || c == '\x0d' || c == '\x0b' || c == '\x0c'

/-- Python `s.strip()`: drop leading and trailing whitespace. -/
def pyStrip (s : String) : String :=
  ⟨((s.data.dropWhile isPySpace).reverse.dropWhile isPySpace).reverse⟩

/-- `"ERROR: No API keys configured."` (line 45 of the source). -/
def noKeysMsg : String := "ERROR: No API keys configured."

/-- `"ERROR: Empty response from model."` (line 63 of the source). -/
def emptyRespMsg : String := "ERROR: Empty response from model."

/-- The terminal message after every key raised quota exhaustion
(line 70 of the source). -/
def allExhaustedMsg : String :=
  "ERROR: All API keys are currently rate-limited. Please wait and try again."

/-- `f"ERROR: An unexpected error occurred: {e}"` (line 68). -/
def unexpectedMsg (m : String) : String :=
  "ERROR: An unexpected error occurred: " ++ m

/-- Result of one iteration of the `for key in api_keys` loop: either the
function returns `result`, or the iteration hit `ResourceExhausted` and
the loop continues with the next key. -/
inductive AttemptOut where
  | done (result : String)
  | quota
deriving DecidableEq, Repr

/-- The `get_file` events one iteration emits while building the content
list: one call when `file_name` is truthy, none otherwise (lines 58-60). -/
def contentEvents (fileName : Option String) : List Event :=
  if optTruthy fileName then [Event.getFileCall (fileName.getD "")] else []

/-- Content-list construction of lines 58-60: `content = [prompt]`, and
when `file_name` is truthy, `content.insert(0, genai.get_file(file_name))`.
A `get_file` exception propagates to the iteration's handlers. -/
def resolveContent (env : Env) (prompt : String) (fileName : Option String) :
    Except PyExn (List ContentPart) :=
  if optTruthy fileName then
    match env.getFile (fileName.getD "") with
    | .ok h => .ok [ContentPart.file h, ContentPart.text prompt]
    | .error e => .error e
  else
    .ok [ContentPart.text prompt]

/-- Lines 62-68 applied to the outcome of `generate_content`:
`ResourceExhausted` continues the loop; any other exception returns the
unexpected-error string; a response returns
`(resp.text or "").strip() or "ERROR: Empty response from model."`. -/
def genOutcome : GenResult → AttemptOut
  | .quotaExhausted => .quota
  | .error m => .done (unexpectedMsg m)
  | .ok t =>
      let s := pyStrip (t.getD "")
      .done (if s == "" then emptyRespMsg else s)

/-- One iteration of the loop body (lines 49-68) for key `key`:
configure, build content (possibly calling `get_file`), call
`generate_content`, and dispatch on the exception handlers. Returns the
events emitted by this iteration and its outcome. -/
def attempt (env : Env) (prompt modelName : String)
    (fileName sysInstr : Option String) (key : String) :
    List Event × AttemptOut :=
  let evs := Event.configure key :: contentEvents fileName
  match resolveContent env prompt fileName with
  | .error .resourceExhausted => (evs, .quota)
  | .error (.other m) => (evs, .done (unexpectedMsg m))
  | .ok content =>
      (evs ++ [Event.generateCall key modelName sysInstr content],
       genOutcome (env.generate key modelName sysInstr content))

/-- The `for key in api_keys` loop of lines 48-70: run iterations until
one returns, or fall through to the all-exhausted message. -/
def failoverLoop (env : Env) (prompt modelName : String)
    (fileName sysInstr : Option String) : List String → List Event × String
  | [] => ([], allExhaustedMsg)
  | k :: rest =>
      match attempt env prompt modelName fileName sysInstr k with
      | (evs, .done r) => (evs, r)
      | (evs, .quota) =>
          let out := failoverLoop env prompt modelName fileName sysInstr rest
          (evs ++ out.1, out.2)

/-- `generate_with_failover` (lines 37-70), with the credential set
(the value `get_api_keys()` returns) and the downstream oracle passed
explicitly. Returns the trace of downstream calls together with the
returned string. -/
def generate_with_failover (env : Env) (prompt : String)
    (modelName : String) (fileName sysInstr : Option String)
    (apiKeys : List String) : List Event × String :=
  match apiKeys with
  | [] => ([], noKeysMsg)
  | k :: rest => failoverLoop env prompt modelName fileName sysInstr (k :: rest)

/-- The default model name of the source's signature. -/
def defaultModelName : String := "gemini-2.5-flash-lite"

/-- Number of `generate_content` calls in a trace. -/
def generateCount (evs : List Event) : Nat :=
  (evs.filter fun e =>
    match e with
    | .generateCall _ _ _ _ => true
    | _ => false).length

/-- The keys passed to `genai.configure`, in call order. -/
def configuredKeys (evs : List Event) : List String :=
  evs.filterMap fun e =>
    match e with
    | .configure k => some k
    | _ => none

/-! ## Credential loader (`get_api_keys`, lines 7-35)

The source inserts candidate values into a Python `set()` and then
iterates it. A Python set guarantees only membership semantics: its
iteration order is implementation-defined (for strings it depends on
hash randomization), not the insertion order. `SetIterModel` captures
exactly what the `set` type guarantees: some enumeration of the
inserted values, without duplicates. -/

/-- The four slot names consulted in both sources, in source order. -/
def slotNames : List String :=
  ["GEMINI_API_KEY_1", "GEMINI_API_KEY_2", "GEMINI_API_KEY_3", "GEMINI_API_KEY_4"]

/-- The sequence of `keys.add(...)` calls (lines 23-33), in program
order: secret-store slots 1-4 (a slot present in `st.secrets` is added
unconditionally, even when blank; a `StreamlitAPIException` skips the
whole block, modelled by `secrets = none`), then environment slots 1-4
(added only when `os.getenv` is truthy, i.e. set and non-empty). The
optional `.env` file load only pre-populates `getenv` and is part of it. -/
def insertedKeys (secrets : Option (String → Option String))
    (getenv : String → Option String) : List String :=
  (match secrets with
   | none => []
   | some sec => slotNames.filterMap sec) ++
  slotNames.filterMap (fun n =>
    match getenv n with
    | some v => if v == "" then none else some v
    | none => none)

/-- A possible iteration behaviour of a Python `set` of strings: given
the sequence of inserted values, an enumeration that lists each distinct
inserted value exactly once, in an order the `set` type leaves
unspecified. -/
structure SetIterModel where
  enumerate : List String → List String
  enum_nodup : ∀ l, (enumerate l).Nodup
  mem_enum : ∀ l x, x ∈ enumerate l ↔ x ∈ l

/-- Each distinct value at the position of its first insertion. -/
def dedupFirst (l : List String) : List String :=
  (l.reverse.dedup).reverse

/-- The set-iteration behaviour that enumerates in first-insertion
order (one admissible behaviour among many). -/
def firstDiscoveryModel : SetIterModel where
  enumerate := dedupFirst
  enum_nodup := fun l => by
    simp [dedupFirst, List.nodup_reverse]
    exact List.nodup_dedup _
  mem_enum := fun l x => by simp [dedupFirst, List.mem_dedup]

/-- The set-iteration behaviour that enumerates in last-insertion-first
order (another admissible behaviour). -/
def reverseOrderModel : SetIterModel where
  enumerate := fun l => l.reverse.dedup
  enum_nodup := fun l => List.nodup_dedup _
  mem_enum := fun l x => by simp [List.mem_dedup]

/-- `get_api_keys` (lines 8-35), parameterized by the set-iteration
behaviour `S` and the two configuration sources: insert the candidate
values into a set and return `[k for k in keys if k]` — the enumeration
filtered to the truthy (non-empty) values. -/
def get_api_keys (S : SetIterModel) (secrets : Option (String → Option String))
    (getenv : String → Option String) : List String :=
  (S.enumerate (insertedKeys secrets getenv)).filter (fun k => !(k == ""))

/-- Models the `@st.cache_data` decorator applied to `get_api_keys`
(line 7), per its documented semantics: the first call computes the
result, stores it, and reads the sources; later calls return the stored
value without reading the sources. Returns
(result, new cache, whether the sources were read). -/
def get_api_keys_cached (S : SetIterModel)
    (secrets : Option (String → Option String))
    (getenv : String → Option String) :
    Option (List String) → List String × Option (List String) × Bool
  | some v => (v, some v, false)
  | none =>
      let r := get_api_keys S secrets getenv
      (r, some r, true)

/-- Configuration with no source set at all. -/
def noSources : String → Option String := fun _ => none

/-- A secret store whose only slot is `GEMINI_API_KEY_1 = "   "`. -/
def secretsBlank : Option (String → Option String) :=
  some (fun n => if n == "GEMINI_API_KEY_1" then some "   " else none)

/-- A secret store with `GEMINI_API_KEY_1 = "keyA"` and
`GEMINI_API_KEY_2 = "keyB"`. -/
def secretsAB : Option (String → Option String) :=
  some (fun n =>
    if n == "GEMINI_API_KEY_1" then some "keyA"
    else if n == "GEMINI_API_KEY_2" then some "keyB"
    else none)

/-! ## Concrete oracles used as witnesses and counterexamples -/

/-- Downstream behaviour: every key succeeds with text `"   "`. -/
def envBlankText : Env :=
  ⟨fun _ => .error (.other "nf"), fun _ _ _ _ => .ok (some "   ")⟩

/-- Downstream behaviour: keys other than `"k3"` are quota-exhausted,
`"k3"` succeeds with text `" ok "`. -/
def envThirdOk : Env :=
  ⟨fun _ => .error (.other "nf"),
   fun k _ _ _ => if k == "k3" then .ok (some " ok ") else .quotaExhausted⟩

/-- Downstream behaviour: every generate call raises a generic error
`"boom"`. -/
def envBoom : Env :=
  ⟨fun _ => .error (.other "nf"), fun _ _ _ _ => .error "boom"⟩

/-- Downstream behaviour: every generate call is quota-exhausted. -/
def envAllQuota : Env :=
  ⟨fun _ => .error (.other "nf"), fun _ _ _ _ => .quotaExhausted⟩

/-- Downstream behaviour: file `"f"` resolves, every generate call
succeeds with text `"out"`. -/
def envFileOk : Env :=
  ⟨fun n => if n == "f" then .ok ⟨"f"⟩ else .error (.other "nf"),
   fun _ _ _ _ => .ok (some "out")⟩

/-- The trace of one loop iteration that reaches `generate_content`
with content `c`. -/
def attemptEvs (mn : String) (fn si : Option String) (c : List ContentPart)
    (k : String) : List Event :=
  (Event.configure k :: contentEvents fn) ++ [Event.generateCall k mn si c]

/-- The trace of a run of consecutive quota-exhausted iterations over
`ks`, each reaching `generate_content` with content `c`. -/
def quotaTrace (mn : String) (fn si : Option String) (c : List ContentPart) :
    List String → List Event
  | [] => []
  | k :: ks => attemptEvs mn fn si c k ++ quotaTrace mn fn si c ks


/-! ## Helper lemmas about the failover loop -/

theorem generateCount_append (a b : List Event) :
    generateCount (a ++ b) = generateCount a + generateCount b := by
  simp [generateCount, List.filter_append]

theorem configuredKeys_append (a b : List Event) :
    configuredKeys (a ++ b) = configuredKeys a ++ configuredKeys b := by
  simp [configuredKeys, List.filterMap_append]

theorem generateCount_contentEvents (fn : Option String) :
    generateCount (contentEvents fn) = 0 := by
  unfold contentEvents; split <;> rfl

theorem configuredKeys_contentEvents (fn : Option String) :
    configuredKeys (contentEvents fn) = [] := by
  unfold contentEvents; split <;> rfl

theorem generateCount_attemptEvs (mn : String) (fn si : Option String)
    (c : List ContentPart) (k : String) :
    generateCount (attemptEvs mn fn si c k) = 1 := by
  have h1 : attemptEvs mn fn si c k =
      [Event.configure k] ++ contentEvents fn ++ [Event.generateCall k mn si c] := rfl
  rw [h1, generateCount_append, generateCount_append, generateCount_contentEvents]
  rfl

theorem configuredKeys_attemptEvs (mn : String) (fn si : Option String)
    (c : List ContentPart) (k : String) :
    configuredKeys (attemptEvs mn fn si c k) = [k] := by
  have h1 : attemptEvs mn fn si c k =
      [Event.configure k] ++ contentEvents fn ++ [Event.generateCall k mn si c] := rfl
  rw [h1, configuredKeys_append, configuredKeys_append, configuredKeys_contentEvents]
  rfl

theorem generateCount_quotaTrace (mn : String) (fn si : Option String)
    (c : List ContentPart) (ks : List String) :
    generateCount (quotaTrace mn fn si c ks) = ks.length := by
  induction ks with
  | nil => rfl
  | cons k ks ih =>
      simp [quotaTrace, generateCount_append, generateCount_attemptEvs, ih,
        Nat.add_comm]

theorem configuredKeys_quotaTrace (mn : String) (fn si : Option String)
    (c : List ContentPart) (ks : List String) :
    configuredKeys (quotaTrace mn fn si c ks) = ks := by
  induction ks with
  | nil => rfl
  | cons k ks ih =>
      simp [quotaTrace, configuredKeys_append, configuredKeys_attemptEvs, ih]

theorem attempt_eq_of_resolve (env : Env) (p : String) (fn : Option String)
    (c : List ContentPart) (mn : String) (si : Option String) (k : String)
    (hc : resolveContent env p fn = Except.ok c) :
    attempt env p mn fn si k =
      (attemptEvs mn fn si c k, genOutcome (env.generate k mn si c)) := by
  simp [attempt, hc, attemptEvs]

theorem loop_cons_done {env : Env} {p mn : String} {fn si : Option String}
    {k : String} {evs : List Event} {r : String} (ks : List String)
    (h : attempt env p mn fn si k = (evs, .done r)) :
    failoverLoop env p mn fn si (k :: ks) = (evs, r) := by
  simp [failoverLoop, h]

theorem loop_cons_quota {env : Env} {p mn : String} {fn si : Option String}
    {k : String} {evs : List Event} (ks : List String)
    (h : attempt env p mn fn si k = (evs, .quota)) :
    failoverLoop env p mn fn si (k :: ks) =
      (evs ++ (failoverLoop env p mn fn si ks).1,
       (failoverLoop env p mn fn si ks).2) := by
  simp [failoverLoop, h]

theorem loop_append_quota {env : Env} {p mn : String} {fn si : Option String}
    {c : List ContentPart} {ks : List String}
    (hc : resolveContent env p fn = Except.ok c)
    (hq : ∀ k ∈ ks, env.generate k mn si c = GenResult.quotaExhausted)
    (l : List String) :
    failoverLoop env p mn fn si (ks ++ l) =
      (quotaTrace mn fn si c ks ++ (failoverLoop env p mn fn si l).1,
       (failoverLoop env p mn fn si l).2) := by
  induction ks with
  | nil => simp [quotaTrace]
  | cons k ks ih =>
      have hk : env.generate k mn si c = GenResult.quotaExhausted :=
        hq k (List.mem_cons_self k ks)
      have ha : attempt env p mn fn si k = (attemptEvs mn fn si c k, .quota) := by
        rw [attempt_eq_of_resolve env p fn c mn si k hc, hk]; rfl
      have ih' := ih (fun k hkm => hq k (List.mem_cons_of_mem _ hkm))
      rw [List.cons_append, loop_cons_quota (ks ++ l) ha, ih']
      simp [quotaTrace]

theorem gwf_eq_loop {apiKeys : List String} (env : Env) (p mn : String)
    (fn si : Option String) (h : apiKeys ≠ []) :
    generate_with_failover env p mn fn si apiKeys =
      failoverLoop env p mn fn si apiKeys := by
  cases apiKeys with
  | nil => exact absurd rfl h
  | cons k ks => rfl

/-! ## Claim theorems: failover invoker -/

/-- C1 (amended): when the first `k` credentials of the set are
quota-exhausted and credential `k+1` succeeds with response text `t`
whose trimmed form is non-empty, `generate_with_failover` returns `t`
trimmed, makes exactly `k+1` generate calls, and configures the
credentials in the set's order (the first `k+1` of them, in order,
with no delay modelled: iterations are immediately consecutive). -/
theorem failover_quota_then_success (env : Env) (p mn : String)
    (fn si : Option String) (c : List ContentPart) (ks : List String)
    (kk : String) (rest : List String) (t : String)
    (hc : resolveContent env p fn = Except.ok c)
    (hq : ∀ k ∈ ks, env.generate k mn si c = GenResult.quotaExhausted)
    (hok : env.generate kk mn si c = GenResult.ok (some t))
    (ht : pyStrip t ≠ "") :
    (generate_with_failover env p mn fn si (ks ++ kk :: rest)).2 = pyStrip t ∧
    generateCount (generate_with_failover env p mn fn si (ks ++ kk :: rest)).1 =
      ks.length + 1 ∧
    configuredKeys (generate_with_failover env p mn fn si (ks ++ kk :: rest)).1 =
      ks ++ [kk] := by
  have hne : ks ++ kk :: rest ≠ [] := by simp
  rw [gwf_eq_loop env p mn fn si hne, loop_append_quota hc hq (kk :: rest)]
  have hbeq : (pyStrip t == "") = false := by
    simpa using ht
  have ha : attempt env p mn fn si kk =
      (attemptEvs mn fn si c kk, .done (pyStrip t)) := by
    rw [attempt_eq_of_resolve env p fn c mn si kk hc, hok]
    simp [genOutcome, hbeq]
  rw [loop_cons_done rest ha]
  refine ⟨rfl, ?_, ?_⟩
  · rw [generateCount_append, generateCount_quotaTrace, generateCount_attemptEvs]
  · rw [configuredKeys_append, configuredKeys_quotaTrace, configuredKeys_attemptEvs]

/-- Witness for C1's theorem at 3 concrete credentials: the first two
are quota-exhausted, the third succeeds with `" ok "`. -/
theorem failover_quota_then_success_witness :
    (generate_with_failover envThirdOk "p" "m" none none ["k1", "k2", "k3"]).2 = "ok" ∧
    generateCount
      (generate_with_failover envThirdOk "p" "m" none none ["k1", "k2", "k3"]).1 = 3 ∧
    configuredKeys
      (generate_with_failover envThirdOk "p" "m" none none ["k1", "k2", "k3"]).1 =
      ["k1", "k2", "k3"] := by
  have h := failover_quota_then_success envThirdOk "p" "m" none none
    [ContentPart.text "p"] ["k1", "k2"] "k3" [] " ok "
    (by rfl) (by decide) (by rfl) (by decide)
  simpa using h

/-- C1 counterexample: with one credential whose generate call succeeds
with response text `"   "`, the function does not return the trimmed
text (`""`); it returns the empty-response error string instead. -/
theorem failover_blank_success_cex :
    (generate_with_failover envBlankText "p" "m" none none ["k1"]).2 =
      emptyRespMsg ∧
    (generate_with_failover envBlankText "p" "m" none none ["k1"]).2 ≠
      pyStrip "   " := by decide

/-- C2: when the first credentials are quota-exhausted and the next
attempt's generate call raises a non-quota error with message `m`, the
function stops immediately — no remaining credential is tried — and
returns the error-prefixed string carrying `m`; the number of generate
calls is the number of attempts made so far. In particular, with an
error on the very first attempt (`ks = []`), exactly one generate call
is made. -/
theorem failover_terminal_error (env : Env) (p mn : String)
    (fn si : Option String) (c : List ContentPart) (ks : List String)
    (kk : String) (rest : List String) (m : String)
    (hc : resolveContent env p fn = Except.ok c)
    (hq : ∀ k ∈ ks, env.generate k mn si c = GenResult.quotaExhausted)
    (herr : env.generate kk mn si c = GenResult.error m) :
    (generate_with_failover env p mn fn si (ks ++ kk :: rest)).2 =
      "ERROR: An unexpected error occurred: " ++ m ∧
    generateCount (generate_with_failover env p mn fn si (ks ++ kk :: rest)).1 =
      ks.length + 1 ∧
    configuredKeys (generate_with_failover env p mn fn si (ks ++ kk :: rest)).1 =
      ks ++ [kk] := by
  have hne : ks ++ kk :: rest ≠ [] := by simp
  rw [gwf_eq_loop env p mn fn si hne, loop_append_quota hc hq (kk :: rest)]
  have ha : attempt env p mn fn si kk =
      (attemptEvs mn fn si c kk, .done (unexpectedMsg m)) := by
    rw [attempt_eq_of_resolve env p fn c mn si kk hc, herr]; rfl
  rw [loop_cons_done rest ha]
  refine ⟨rfl, ?_, ?_⟩
  · rw [generateCount_append, generateCount_quotaTrace, generateCount_attemptEvs]
  · rw [configuredKeys_append, configuredKeys_quotaTrace, configuredKeys_attemptEvs]

/-- Witness for C2's theorem: 2 credentials, the first attempt raises a
non-quota error `"boom"`: exactly one generate call, no rotation to the
second credential. -/
theorem failover_terminal_error_witness :
    (generate_with_failover envBoom "p" "m" none none ["k1", "k2"]).2 =
      "ERROR: An unexpected error occurred: " ++ "boom" ∧
    generateCount (generate_with_failover envBoom "p" "m" none none ["k1", "k2"]).1 = 1 ∧
    configuredKeys (generate_with_failover envBoom "p" "m" none none ["k1", "k2"]).1 =
      ["k1"] := by
  have h := failover_terminal_error envBoom "p" "m" none none
    [ContentPart.text "p"] [] "k1" ["k2"] "boom" (by rfl) (by decide) (by rfl)
  simpa using h

/-- C3: with a non-empty credential set in which every generate call is
quota-exhausted, the function makes exactly one generate call per
credential and returns the all-exhausted error string, which differs
from the no-credentials-configured error string. -/
theorem failover_all_exhausted (env : Env) (p mn : String)
    (fn si : Option String) (c : List ContentPart) (keys : List String)
    (hc : resolveContent env p fn = Except.ok c)
    (hq : ∀ k ∈ keys, env.generate k mn si c = GenResult.quotaExhausted)
    (hne : keys ≠ []) :
    (generate_with_failover env p mn fn si keys).2 = allExhaustedMsg ∧
    generateCount (generate_with_failover env p mn fn si keys).1 = keys.length ∧
    allExhaustedMsg ≠ noKeysMsg := by
  have hkeys : keys ++ [] = keys := List.append_nil keys
  rw [gwf_eq_loop env p mn fn si hne, ← hkeys, loop_append_quota hc hq []]
  refine ⟨rfl, ?_, by decide⟩
  have h0 : (failoverLoop env p mn fn si []).1 = [] := rfl
  rw [h0, List.append_nil, generateCount_quotaTrace]
  simp

/-- Witness for C3's theorem at 2 concrete credentials, both
quota-exhausted. -/
theorem failover_all_exhausted_witness :
    (generate_with_failover envAllQuota "p" "m" none none ["k1", "k2"]).2 =
      allExhaustedMsg ∧
    generateCount
      (generate_with_failover envAllQuota "p" "m" none none ["k1", "k2"]).1 = 2 := by
  have h := failover_all_exhausted envAllQuota "p" "m" none none
    [ContentPart.text "p"] ["k1", "k2"] (by rfl) (by decide) (by decide)
  exact ⟨h.1, by simpa using h.2.1⟩

/-- C4: with an empty credential set, `generate_with_failover` returns
the configuration-error string and the downstream trace is empty — no
configure, no get_file, no generate call. -/
theorem failover_no_keys (env : Env) (p mn : String) (fn si : Option String) :
    generate_with_failover env p mn fn si [] = ([], noKeysMsg) := rfl

/-- C5: when the first credentials are quota-exhausted and the next
attempt's generate call succeeds with a response text that is null,
empty, or whitespace-only (trimmed text empty), the function returns
the empty-response error string immediately: one generate call for that
attempt and no rotation to any remaining credential. -/
theorem failover_empty_response (env : Env) (p mn : String)
    (fn si : Option String) (c : List ContentPart) (ks : List String)
    (kk : String) (rest : List String) (t : Option String)
    (hc : resolveContent env p fn = Except.ok c)
    (hq : ∀ k ∈ ks, env.generate k mn si c = GenResult.quotaExhausted)
    (hok : env.generate kk mn si c = GenResult.ok t)
    (hblank : pyStrip (t.getD "") = "") :
    (generate_with_failover env p mn fn si (ks ++ kk :: rest)).2 = emptyRespMsg ∧
    generateCount (generate_with_failover env p mn fn si (ks ++ kk :: rest)).1 =
      ks.length + 1 ∧
    configuredKeys (generate_with_failover env p mn fn si (ks ++ kk :: rest)).1 =
      ks ++ [kk] := by
  have hne : ks ++ kk :: rest ≠ [] := by simp
  rw [gwf_eq_loop env p mn fn si hne, loop_append_quota hc hq (kk :: rest)]
  have hbeq : (pyStrip (t.getD "") == "") = true := by simpa using hblank
  have ha : attempt env p mn fn si kk =
      (attemptEvs mn fn si c kk, .done emptyRespMsg) := by
    rw [attempt_eq_of_resolve env p fn c mn si kk hc, hok]
    simp [genOutcome, hbeq]
  rw [loop_cons_done rest ha]
  refine ⟨rfl, ?_, ?_⟩
  · rw [generateCount_append, generateCount_quotaTrace, generateCount_attemptEvs]
  · rw [configuredKeys_append, configuredKeys_quotaTrace, configuredKeys_attemptEvs]

/-- Witness for C5's theorem: one credential answering `"   "` with a
second credential available: the result is the empty-response error and
the second credential is never configured. -/
theorem failover_empty_response_witness :
    (generate_with_failover envBlankText "q" "m" none none ["k1", "k2"]).2 =
      emptyRespMsg ∧
    generateCount
      (generate_with_failover envBlankText "q" "m" none none ["k1", "k2"]).1 = 1 ∧
    configuredKeys
      (generate_with_failover envBlankText "q" "m" none none ["k1", "k2"]).1 =
      ["k1"] := by
  have h := failover_empty_response envBlankText "q" "m" none none
    [ContentPart.text "q"] [] "k1" ["k2"] (some "   ")
    (by rfl) (by decide) (by rfl) (by decide)
  simpa using h

/-! ## Helper lemmas for the failure-tagging and file-name claims -/

theorem unexpectedMsg_split (m : String) :
    unexpectedMsg m = "ERROR:" ++ (" An unexpected error occurred: " ++ m) := rfl

theorem genOutcome_done_cases {g : GenResult} {r : String}
    (h : genOutcome g = .done r) :
    (∃ s, r = "ERROR:" ++ s) ∨
    (∃ t, g = GenResult.ok t ∧ r = pyStrip (t.getD "") ∧ pyStrip (t.getD "") ≠ "") := by
  cases g with
  | quotaExhausted => simp [genOutcome] at h
  | error m =>
      simp [genOutcome] at h
      exact Or.inl ⟨" An unexpected error occurred: " ++ m, by
        rw [← h]; exact unexpectedMsg_split m⟩
  | ok t =>
      simp only [genOutcome, AttemptOut.done.injEq] at h
      split at h
      · exact Or.inl ⟨" Empty response from model.", by rw [← h]; rfl⟩
      · rename_i hb
        refine Or.inr ⟨t, rfl, h.symm, ?_⟩
        simpa using hb

theorem attempt_done_cases {env : Env} {p mn : String} {fn si : Option String}
    {k : String} {evs : List Event} {r : String}
    (h : attempt env p mn fn si k = (evs, .done r)) :
    (∃ s, r = "ERROR:" ++ s) ∨
    (∃ c t, env.generate k mn si c = GenResult.ok t ∧
      r = pyStrip (t.getD "") ∧ pyStrip (t.getD "") ≠ "") := by
  unfold attempt at h
  cases hrc : resolveContent env p fn with
  | error e =>
      rw [hrc] at h
      cases e with
      | resourceExhausted => simp at h
      | other m =>
          simp at h
          exact Or.inl ⟨" An unexpected error occurred: " ++ m, by
            rw [← h.2]; exact unexpectedMsg_split m⟩
  | ok c =>
      rw [hrc] at h
      simp at h
      rcases genOutcome_done_cases h.2 with he | ⟨t, hg, hr, hne⟩
      · exact Or.inl he
      · exact Or.inr ⟨c, t, hg, hr, hne⟩

theorem loop_result_cases (env : Env) (p mn : String) (fn si : Option String)
    (keys : List String) :
    (∃ s, (failoverLoop env p mn fn si keys).2 = "ERROR:" ++ s) ∨
    (∃ k c t, env.generate k mn si c = GenResult.ok t ∧
      (failoverLoop env p mn fn si keys).2 = pyStrip (t.getD "") ∧
      pyStrip (t.getD "") ≠ "") := by
  induction keys with
  | nil =>
      exact Or.inl ⟨" All API keys are currently rate-limited. Please wait and try again.",
        rfl⟩
  | cons k ks ih =>
      cases hA : attempt env p mn fn si k with
      | mk evs out =>
          cases out with
          | done r =>
              rw [loop_cons_done ks hA]
              rcases attempt_done_cases hA with he | ⟨c, t, hg, hr, hne⟩
              · exact Or.inl he
              · exact Or.inr ⟨k, c, t, hg, hr, hne⟩
          | quota =>
              rw [loop_cons_quota ks hA]
              exact ih

theorem mem_loop_trace {env : Env} {p mn : String} {fn si : Option String}
    {c : List ContentPart} (hc : resolveContent env p fn = Except.ok c)
    {keys : List String} {e : Event}
    (he : e ∈ (failoverLoop env p mn fn si keys).1) :
    (∃ k, e = Event.configure k) ∨ e ∈ contentEvents fn ∨
    (∃ k, e = Event.generateCall k mn si c) := by
  induction keys with
  | nil => simp [failoverLoop] at he
  | cons k ks ih =>
      have ha := attempt_eq_of_resolve env p fn c mn si k hc
      have hmem : e ∈ attemptEvs mn fn si c k →
          (∃ k', e = Event.configure k') ∨ e ∈ contentEvents fn ∨
          (∃ k', e = Event.generateCall k' mn si c) := by
        intro hx
        simp only [attemptEvs, List.mem_append, List.mem_cons,
          List.mem_singleton] at hx
        rcases hx with (rfl | hx) | (rfl | hx)
        · exact Or.inl ⟨k, rfl⟩
        · exact Or.inr (Or.inl hx)
        · exact Or.inr (Or.inr ⟨k, rfl⟩)
        · exact absurd hx (List.not_mem_nil e)
      cases hg : genOutcome (env.generate k mn si c) with
      | done r =>
          have hA : attempt env p mn fn si k = (attemptEvs mn fn si c k, .done r) := by
            rw [ha, hg]
          rw [loop_cons_done ks hA] at he
          exact hmem he
      | quota =>
          have hA : attempt env p mn fn si k = (attemptEvs mn fn si c k, .quota) := by
            rw [ha, hg]
          rw [loop_cons_quota ks hA] at he
          rcases List.mem_append.1 he with hx | hx
          · exact hmem hx
          · exact ih hx

theorem attempt_empty_fileName (env : Env) (p mn : String) (si : Option String)
    (k : String) :
    attempt env p mn (some "") si k = attempt env p mn none si k := by
  simp [attempt, resolveContent, contentEvents, optTruthy]

theorem loop_empty_fileName (env : Env) (p mn : String) (si : Option String)
    (keys : List String) :
    failoverLoop env p mn (some "") si keys = failoverLoop env p mn none si keys := by
  induction keys with
  | nil => rfl
  | cons k ks ih => simp [failoverLoop, attempt_empty_fileName, ih]

/-- C6: `generate_with_failover` is a total function (it never raises:
every downstream exception is caught and converted), and its returned
string is either an error-tagged string beginning exactly with
`"ERROR:"`, or the trimmed non-empty response text of a successful
downstream generate call. -/
theorem failover_result_tagged (env : Env) (p mn : String)
    (fn si : Option String) (keys : List String) :
    (∃ s, (generate_with_failover env p mn fn si keys).2 = "ERROR:" ++ s) ∨
    (∃ k c t, env.generate k mn si c = GenResult.ok t ∧
      (generate_with_failover env p mn fn si keys).2 = pyStrip (t.getD "") ∧
      pyStrip (t.getD "") ≠ "") := by
  cases keys with
  | nil => exact Or.inl ⟨" No API keys configured.", rfl⟩
  | cons k ks =>
      rw [gwf_eq_loop env p mn fn si (by simp)]
      exact loop_result_cases env p mn fn si (k :: ks)

/-- C10: an empty-string `file_name` behaves exactly like an absent
one — the whole run (trace and result) is identical, `get_file` is never
called and every generate call sends the prompt alone — while a
non-empty `file_name` that resolves to handle `h` makes every generate
call send the resolved handle prepended before the prompt. -/
theorem failover_empty_filename (env : Env) (p mn : String)
    (si : Option String) (keys : List String) :
    generate_with_failover env p mn (some "") si keys =
      generate_with_failover env p mn none si keys ∧
    (∀ n, Event.getFileCall n ∉ (generate_with_failover env p mn none si keys).1) ∧
    (∀ k' mn' si' cc,
      Event.generateCall k' mn' si' cc ∈
        (generate_with_failover env p mn none si keys).1 →
      cc = [ContentPart.text p]) ∧
    (∀ f h, f ≠ "" → env.getFile f = Except.ok h →
      ∀ k' mn' si' cc,
        Event.generateCall k' mn' si' cc ∈
          (generate_with_failover env p mn (some f) si keys).1 →
        cc = [ContentPart.file h, ContentPart.text p]) := by
  have hcnone : resolveContent env p none = Except.ok [ContentPart.text p] := rfl
  refine ⟨?_, ?_, ?_, ?_⟩
  · cases keys with
    | nil => rfl
    | cons k ks =>
        rw [gwf_eq_loop env p mn (some "") si (by simp),
          gwf_eq_loop env p mn none si (by simp)]
        exact loop_empty_fileName env p mn si (k :: ks)
  · intro n hmem
    cases keys with
    | nil => simp [generate_with_failover] at hmem
    | cons k ks =>
        rw [gwf_eq_loop env p mn none si (by simp)] at hmem
        rcases mem_loop_trace hcnone hmem with ⟨k', hk⟩ | hk | ⟨k', hk⟩
        · exact Event.noConfusion hk
        · simp [contentEvents, optTruthy] at hk
        · exact Event.noConfusion hk
  · intro k' mn' si' cc hmem
    cases keys with
    | nil => simp [generate_with_failover] at hmem
    | cons k ks =>
        rw [gwf_eq_loop env p mn none si (by simp)] at hmem
        rcases mem_loop_trace hcnone hmem with ⟨k'', hk⟩ | hk | ⟨k'', hk⟩
        · exact Event.noConfusion hk
        · simp [contentEvents, optTruthy] at hk
        · injection hk with h1 h2 h3 h4
  · intro f h hf hres k' mn' si' cc hmem
    have htr : optTruthy (some f) = true := by
      simp [optTruthy, hf]
    have hcf : resolveContent env p (some f) =
        Except.ok [ContentPart.file h, ContentPart.text p] := by
      simp [resolveContent, htr, hres]
    cases keys with
    | nil => simp [generate_with_failover] at hmem
    | cons k ks =>
        rw [gwf_eq_loop env p mn (some f) si (by simp)] at hmem
        rcases mem_loop_trace hcf hmem with ⟨k'', hk⟩ | hk | ⟨k'', hk⟩
        · exact Event.noConfusion hk
        · simp [contentEvents, htr] at hk
        · injection hk with h1 h2 h3 h4

/-- Witness for C10's theorem at a concrete oracle: with one credential
and resolvable file `"f"`, the empty-string run equals the no-file run,
`get_file` is never called in the no-file run, and the generate call of
the `file_name = "f"` run carries the file handle before the prompt. -/
theorem failover_empty_filename_witness :
    generate_with_failover envFileOk "p" "m" (some "") none ["k1"] =
      generate_with_failover envFileOk "p" "m" none none ["k1"] ∧
    Event.getFileCall "f" ∉
      (generate_with_failover envFileOk "p" "m" none none ["k1"]).1 ∧
    [ContentPart.file ⟨"f"⟩, ContentPart.text "p"] =
      [ContentPart.file (⟨"f"⟩ : FileHandle), ContentPart.text "p"] := by
  have hw := failover_empty_filename envFileOk "p" "m" none ["k1"]
  refine ⟨hw.1, hw.2.1 "f", ?_⟩
  exact hw.2.2.2 "f" ⟨"f"⟩ (by decide) (by rfl) "k1" "m" none
    [ContentPart.file ⟨"f"⟩, ContentPart.text "p"] (by decide)

/-! ## Claim theorems: credential loader -/

theorem dedupFirst_nodup (l : List String) : (dedupFirst l).Nodup := by
  rw [dedupFirst, List.nodup_reverse]
  exact List.nodup_dedup _

theorem mem_dedupFirst (x : String) (l : List String) : x ∈ dedupFirst l ↔ x ∈ l := by
  simp [dedupFirst, List.mem_dedup]

theorem loader_nodup (S : SetIterModel) (secrets : Option (String → Option String))
    (getenv : String → Option String) : (get_api_keys S secrets getenv).Nodup :=
  (S.enum_nodup _).filter _

theorem loader_mem (S : SetIterModel) (secrets : Option (String → Option String))
    (getenv : String → Option String) (x : String) :
    x ∈ get_api_keys S secrets getenv ↔
      x ∈ insertedKeys secrets getenv ∧ x ≠ "" := by
  unfold get_api_keys
  rw [List.mem_filter, S.mem_enum]
  simp

theorem loader_perm (S : SetIterModel) (secrets : Option (String → Option String))
    (getenv : String → Option String) :
    List.Perm (get_api_keys S secrets getenv)
      (dedupFirst ((insertedKeys secrets getenv).filter (fun k => !(k == "")))) := by
  apply (List.perm_ext_iff_of_nodup (loader_nodup S secrets getenv)
    (dedupFirst_nodup _)).2
  intro a
  rw [loader_mem, mem_dedupFirst, List.mem_filter]
  simp

/-- C7 (amended): for every admissible set-iteration behaviour and
every configuration of the secret store and environment slots
`GEMINI_API_KEY_1..4`, `get_api_keys` returns each collected value
exactly once, and a value is returned iff it was collected and is
non-empty; the number of returned values is the number of distinct
non-empty collected values. Values that are whitespace-only but
non-empty are collected and retained — only the empty string is
excluded. -/
theorem loader_distinct_nonempty (S : SetIterModel)
    (secrets : Option (String → Option String))
    (getenv : String → Option String) :
    (get_api_keys S secrets getenv).Nodup ∧
    (∀ x, x ∈ get_api_keys S secrets getenv ↔
      x ∈ insertedKeys secrets getenv ∧ x ≠ "") ∧
    (get_api_keys S secrets getenv).length =
      (dedupFirst ((insertedKeys secrets getenv).filter (fun k => !(k == "")))).length :=
  ⟨loader_nodup S secrets getenv, loader_mem S secrets getenv,
    (loader_perm S secrets getenv).length_eq⟩

/-- C7 counterexample: with the single configured value `"   "`
(whitespace-only, hence blank and not a distinct non-blank value), the
claim predicts an empty result, but `get_api_keys` returns `["   "]` —
blank values are not excluded, only empty ones are. -/
theorem loader_blank_retained_cex :
    get_api_keys firstDiscoveryModel secretsBlank noSources = ["   "] ∧
    pyStrip "   " = "" := by decide

/-- C8 (amended): the slots are read in the fixed order secret-store
`GEMINI_API_KEY_1..4` then environment `GEMINI_API_KEY_1..4` (this is
what `insertedKeys` records), and the returned list enumerates each
distinct non-empty collected value exactly once — it is a permutation
of the first-discovery-ordered list, but the `set` iteration leaves the
actual order unspecified, so first-discovery order itself is not
guaranteed. -/
theorem loader_perm_of_first_discovery (S : SetIterModel)
    (secrets : Option (String → Option String))
    (getenv : String → Option String) :
    List.Perm (get_api_keys S secrets getenv)
      (dedupFirst ((insertedKeys secrets getenv).filter (fun k => !(k == "")))) :=
  loader_perm S secrets getenv

/-- C8 counterexample: with slots 1 and 2 holding `"keyA"` and `"keyB"`
and an admissible set-iteration behaviour that enumerates in reverse,
the returned list is `["keyB", "keyA"]`, not the first-discovery order
`["keyA", "keyB"]` — the code does not guarantee insertion order of
first discovery. -/
theorem loader_order_cex :
    get_api_keys reverseOrderModel secretsAB noSources = ["keyB", "keyA"] ∧
    dedupFirst ((insertedKeys secretsAB noSources).filter (fun k => !(k == ""))) =
      ["keyA", "keyB"] ∧
    get_api_keys reverseOrderModel secretsAB noSources ≠
      dedupFirst ((insertedKeys secretsAB noSources).filter (fun k => !(k == ""))) := by
  decide

/-- C9: under the cached loader (the `@st.cache_data` decorator of
line 7, modelled by `get_api_keys_cached`), a first call from an empty
cache reads the sources, and a second call in the same process returns
the identical list without reading the sources. -/
theorem loader_cached_idempotent (S : SetIterModel)
    (secrets : Option (String → Option String))
    (getenv : String → Option String) :
    (get_api_keys_cached S secrets getenv none).1 =
      (get_api_keys_cached S secrets getenv
        (get_api_keys_cached S secrets getenv none).2.1).1 ∧
    (get_api_keys_cached S secrets getenv none).2.2 = true ∧
    (get_api_keys_cached S secrets getenv
      (get_api_keys_cached S secrets getenv none).2.1).2.2 = false :=
  ⟨rfl, rfl, rfl⟩
